import Mathlib

/-!
Shallow embedding of `src/main.go` (dynamic-API-handling): a webhook
receiver with two HTTP handlers, `HealthCheck` and `HandleDynamicAPI`.

JSON values are modelled by the inductive `Json` (numbers restricted to
integers, which covers every number the program inspects).  A request body
is `Option Json`: `some j` when the raw bytes are valid JSON parsing to
`j`, `none` when they are malformed.  Go's `encoding/json.Unmarshal` into
the three target structs is modelled field by field: an object is decoded
by folding over its key/value pairs in order, keys are matched against the
struct tags case-insensitively (`strings.EqualFold`, here ASCII folding),
`null` leaves a scalar field unchanged, unknown keys are ignored, and a
type mismatch makes the whole unmarshal return `none` (Go returns the
first `UnmarshalTypeError`; the handler only observes error-or-not and the
fully successful value).  `time.Time` fields are modelled by `GoTime`:
`UnmarshalJSON` accepts `null` as a no-op and otherwise requires a JSON
string in RFC 3339 form (`rfc3339Valid` is a simplified recognizer for the
canonical `YYYY-MM-DDTHH:MM:SSZ` layout; its exact boundary is never
relevant to the handler's observable branching).
-/

inductive Json where
  | null : Json
  | bool (b : Bool) : Json
  | num (n : Int) : Json
  | str (s : String) : Json
  | arr (xs : List Json) : Json
  | obj (fields : List (String × Json)) : Json

/-- Lower-case an ASCII letter, identity elsewhere. -/
def foldChar (c : Char) : Char :=
  if 65 ≤ c.toNat ∧ c.toNat ≤ 90 then Char.ofNat (c.toNat + 32) else c

/-- ASCII case-insensitive key match, modelling Go's `strings.EqualFold`
as used by `encoding/json` to match object keys to struct tags (all tags
in `main.go` are lower-case ASCII). -/
def eqFold (k tag : String) : Bool :=
  k.toList.map foldChar == tag.toList

/-- Simplified recognizer for the RFC 3339 layout `time.Time.UnmarshalJSON`
requires (canonical form `YYYY-MM-DDTHH:MM:SSZ`). -/
def rfc3339Valid (s : String) : Bool :=
  let cs := s.toList
  cs.length == 20 &&
    cs.enum.all fun p =>
      if p.1 == 4 || p.1 == 7 then p.2 == '-'
      else if p.1 == 10 then p.2 == 'T'
      else if p.1 == 13 || p.1 == 16 then p.2 == ':'
      else if p.1 == 19 then p.2 == 'Z'
      else p.2.isDigit

/-- Model of Go `time.Time` as far as the program observes it: either the
zero value `time.Time{}` or a successfully parsed RFC 3339 string. -/
structure GoTime where
  parsed : Option String

def GoTime.zero : GoTime := ⟨none⟩

/-- Unmarshal a JSON value into a Go `string` field holding `cur`:
`null` is a no-op, a JSON string overwrites, anything else is a
`json.UnmarshalTypeError`. -/
def goStr (cur : String) : Json → Option String
  | .null => some cur
  | .str s => some s
  | _ => none

/-- Unmarshal a JSON value into a Go `int` field. -/
def goInt (cur : Int) : Json → Option Int
  | .null => some cur
  | .num n => some n
  | _ => none

/-- Unmarshal a JSON value into a Go `bool` field. -/
def goBool (cur : Bool) : Json → Option Bool
  | .null => some cur
  | .bool b => some b
  | _ => none

/-- Unmarshal a JSON value into a Go `any` (interface) field: every JSON
value succeeds; `null` stores the nil interface (modelled `Json.null`). -/
def goAny (_cur : Json) : Json → Option Json
  | v => some v

/-- Unmarshal a JSON value into a Go `[]any` field: `null` stores a nil
slice, an array stores its elements, anything else is a type error. -/
def goListAny (_cur : List Json) : Json → Option (List Json)
  | .null => some []
  | .arr xs => some xs
  | _ => none

/-- Unmarshal a JSON value into a Go `time.Time` field
(`time.Time.UnmarshalJSON`): `null` is a no-op, a string must parse as
RFC 3339, anything else is an error. -/
def goTime (cur : GoTime) : Json → Option GoTime
  | .null => some cur
  | .str s => if rfc3339Valid s then some ⟨some s⟩ else none
  | _ => none

/-- Decode a JSON object's fields in order into a struct value, starting
from `init`, with `upd` handling one key/value pair (the per-struct field
dispatch).  This is Go's object-decoding loop in `encoding/json`. -/
def unmarshalFields {T : Type} (upd : T → String → Json → Option T)
    (init : T) : List (String × Json) → Option T
  | [] => some init
  | (k, v) :: rest => do
      let t ← upd init k v
      unmarshalFields upd t rest

/-- `type eventIdentfier struct { Event string }` (main.go:27). -/
structure EventIdentfier where
  event : String
deriving Repr, DecidableEq

def EventIdentfier.zero : EventIdentfier := ⟨""⟩

/-- The anonymous `Data` struct of `paymentPending` (main.go:33). -/
structure PendingData where
  id : Int
  domain : String
  amount : Int
  currency : String
  due_date : Json
  has_invoice : Bool
  invoice_number : Json
  description : String
  pdf_url : Json
  line_items : List Json
  tax : List Json
  request_code : String
  status : String
  paid : Bool
  paid_at : Json
  metadata : Json
  notifications : List Json
  offline_reference : String
  customer : Int
  created_at : GoTime

def PendingData.zero : PendingData :=
  ⟨0, "", 0, "", .null, false, .null, "", .null, [], [], "", "", false,
   .null, .null, [], "", 0, GoTime.zero⟩

/-- `type paymentPending struct` (main.go:31). -/
structure PaymentPending where
  event : String
  data : PendingData

def PaymentPending.zero : PaymentPending := ⟨"", PendingData.zero⟩

/-- One element of `paymentSuccessful.Data.Notifications` (main.go:76). -/
structure Notification where
  sent_at : GoTime
  channel : String

def Notification.zero : Notification := ⟨GoTime.zero, ""⟩

/-- The anonymous `Data` struct of `paymentSuccessful` (main.go:59). -/
structure SuccessData where
  id : Int
  domain : String
  amount : Int
  currency : String
  due_date : Json
  has_invoice : Bool
  invoice_number : Json
  description : String
  pdf_url : Json
  line_items : List Json
  tax : List Json
  request_code : String
  status : String
  paid : Bool
  paid_at : GoTime
  metadata : Json
  notifications : List Notification
  offline_reference : String
  customer : Int
  created_at : GoTime

def SuccessData.zero : SuccessData :=
  ⟨0, "", 0, "", .null, false, .null, "", .null, [], [], "", "", false,
   GoTime.zero, .null, [], "", 0, GoTime.zero⟩

/-- `type paymentSuccessful struct` (main.go:57). -/
structure PaymentSuccessful where
  event : String
  data : SuccessData

def PaymentSuccessful.zero : PaymentSuccessful := ⟨"", SuccessData.zero⟩

/-- Field dispatch for `eventIdentfier`: only the `event` tag is declared,
all other keys are ignored. -/
def updEventIdentfier (t : EventIdentfier) (k : String) (v : Json) :
    Option EventIdentfier :=
  if eqFold k "event" then (goStr t.event v).map fun s => { t with event := s }
  else some t

/-- `json.Unmarshal(jsonData, &eventIdentfier)`: the top level must be an
object (`null` is a no-op); anything else is an `UnmarshalTypeError`. -/
def unmarshalEventIdentfier (j : Json) (t : EventIdentfier) :
    Option EventIdentfier :=
  match j with
  | .null => some t
  | .obj fs => unmarshalFields updEventIdentfier t fs
  | _ => none

/-- Field dispatch for `paymentPending.Data` (main.go:33-54). -/
def updPendingData (t : PendingData) (k : String) (v : Json) :
    Option PendingData :=
  if eqFold k "id" then (goInt t.id v).map fun x => { t with id := x }
  else if eqFold k "domain" then (goStr t.domain v).map fun x => { t with domain := x }
  else if eqFold k "amount" then (goInt t.amount v).map fun x => { t with amount := x }
  else if eqFold k "currency" then (goStr t.currency v).map fun x => { t with currency := x }
  else if eqFold k "due_date" then (goAny t.due_date v).map fun x => { t with due_date := x }
  else if eqFold k "has_invoice" then (goBool t.has_invoice v).map fun x => { t with has_invoice := x }
  else if eqFold k "invoice_number" then (goAny t.invoice_number v).map fun x => { t with invoice_number := x }
  else if eqFold k "description" then (goStr t.description v).map fun x => { t with description := x }
  else if eqFold k "pdf_url" then (goAny t.pdf_url v).map fun x => { t with pdf_url := x }
  else if eqFold k "line_items" then (goListAny t.line_items v).map fun x => { t with line_items := x }
  else if eqFold k "tax" then (goListAny t.tax v).map fun x => { t with tax := x }
  else if eqFold k "request_code" then (goStr t.request_code v).map fun x => { t with request_code := x }
  else if eqFold k "status" then (goStr t.status v).map fun x => { t with status := x }
  else if eqFold k "paid" then (goBool t.paid v).map fun x => { t with paid := x }
  else if eqFold k "paid_at" then (goAny t.paid_at v).map fun x => { t with paid_at := x }
  else if eqFold k "metadata" then (goAny t.metadata v).map fun x => { t with metadata := x }
  else if eqFold k "notifications" then (goListAny t.notifications v).map fun x => { t with notifications := x }
  else if eqFold k "offline_reference" then (goStr t.offline_reference v).map fun x => { t with offline_reference := x }
  else if eqFold k "customer" then (goInt t.customer v).map fun x => { t with customer := x }
  else if eqFold k "created_at" then (goTime t.created_at v).map fun x => { t with created_at := x }
  else some t

/-- Unmarshal a JSON value into the nested `Data` struct field of
`paymentPending`: `null` is a no-op, an object is decoded field by field. -/
def goPendingData (cur : PendingData) : Json → Option PendingData
  | .null => some cur
  | .obj fs => unmarshalFields updPendingData cur fs
  | _ => none

/-- Field dispatch for `paymentPending` (main.go:31-55). -/
def updPaymentPending (t : PaymentPending) (k : String) (v : Json) :
    Option PaymentPending :=
  if eqFold k "event" then (goStr t.event v).map fun s => { t with event := s }
  else if eqFold k "data" then (goPendingData t.data v).map fun d => { t with data := d }
  else some t

/-- `json.Unmarshal(jsonData, &paymentPending)` (main.go:119). -/
def unmarshalPaymentPending (j : Json) (t : PaymentPending) :
    Option PaymentPending :=
  match j with
  | .null => some t
  | .obj fs => unmarshalFields updPaymentPending t fs
  | _ => none

/-- Field dispatch for one `Notifications` element of
`paymentSuccessful.Data` (main.go:76-79). -/
def updNotification (t : Notification) (k : String) (v : Json) :
    Option Notification :=
  if eqFold k "sent_at" then (goTime t.sent_at v).map fun x => { t with sent_at := x }
  else if eqFold k "channel" then (goStr t.channel v).map fun x => { t with channel := x }
  else some t

/-- Unmarshal a JSON value into one `Notifications` slice element. -/
def unmarshalNotification (j : Json) (t : Notification) : Option Notification :=
  match j with
  | .null => some t
  | .obj fs => unmarshalFields updNotification t fs
  | _ => none

/-- Decode the elements of the `Notifications` JSON array in order, each
into a fresh zero `Notification` (Go grows the slice with zero elements
and decodes into each). -/
def decodeNotifElems : List Json → Option (List Notification)
  | [] => some []
  | x :: xs => do
      let n ← unmarshalNotification x Notification.zero
      let ns ← decodeNotifElems xs
      some (n :: ns)

/-- Unmarshal a JSON value into the `[]struct{...}` `Notifications` field:
`null` stores a nil slice, an array decodes each element, anything else is
a type error. -/
def goNotifList (_cur : List Notification) : Json → Option (List Notification)
  | .null => some []
  | .arr xs => decodeNotifElems xs
  | _ => none

/-- Field dispatch for `paymentSuccessful.Data` (main.go:59-83). -/
def updSuccessData (t : SuccessData) (k : String) (v : Json) :
    Option SuccessData :=
  if eqFold k "id" then (goInt t.id v).map fun x => { t with id := x }
  else if eqFold k "domain" then (goStr t.domain v).map fun x => { t with domain := x }
  else if eqFold k "amount" then (goInt t.amount v).map fun x => { t with amount := x }
  else if eqFold k "currency" then (goStr t.currency v).map fun x => { t with currency := x }
  else if eqFold k "due_date" then (goAny t.due_date v).map fun x => { t with due_date := x }
  else if eqFold k "has_invoice" then (goBool t.has_invoice v).map fun x => { t with has_invoice := x }
  else if eqFold k "invoice_number" then (goAny t.invoice_number v).map fun x => { t with invoice_number := x }
  else if eqFold k "description" then (goStr t.description v).map fun x => { t with description := x }
  else if eqFold k "pdf_url" then (goAny t.pdf_url v).map fun x => { t with pdf_url := x }
  else if eqFold k "line_items" then (goListAny t.line_items v).map fun x => { t with line_items := x }
  else if eqFold k "tax" then (goListAny t.tax v).map fun x => { t with tax := x }
  else if eqFold k "request_code" then (goStr t.request_code v).map fun x => { t with request_code := x }
  else if eqFold k "status" then (goStr t.status v).map fun x => { t with status := x }
  else if eqFold k "paid" then (goBool t.paid v).map fun x => { t with paid := x }
  else if eqFold k "paid_at" then (goTime t.paid_at v).map fun x => { t with paid_at := x }
  else if eqFold k "metadata" then (goAny t.metadata v).map fun x => { t with metadata := x }
  else if eqFold k "notifications" then (goNotifList t.notifications v).map fun x => { t with notifications := x }
  else if eqFold k "offline_reference" then (goStr t.offline_reference v).map fun x => { t with offline_reference := x }
  else if eqFold k "customer" then (goInt t.customer v).map fun x => { t with customer := x }
  else if eqFold k "created_at" then (goTime t.created_at v).map fun x => { t with created_at := x }
  else some t

/-- Unmarshal a JSON value into the nested `Data` struct field of
`paymentSuccessful`. -/
def goSuccessData (cur : SuccessData) : Json → Option SuccessData
  | .null => some cur
  | .obj fs => unmarshalFields updSuccessData cur fs
  | _ => none

/-- Field dispatch for `paymentSuccessful` (main.go:57-84). -/
def updPaymentSuccessful (t : PaymentSuccessful) (k : String) (v : Json) :
    Option PaymentSuccessful :=
  if eqFold k "event" then (goStr t.event v).map fun s => { t with event := s }
  else if eqFold k "data" then (goSuccessData t.data v).map fun d => { t with data := d }
  else some t

/-- `json.Unmarshal(jsonData, &paymentSuccessful)` (main.go:134). -/
def unmarshalPaymentSuccessful (j : Json) (t : PaymentSuccessful) :
    Option PaymentSuccessful :=
  match j with
  | .null => some t
  | .obj fs => unmarshalFields updPaymentSuccessful t fs
  | _ => none

/-- The Event Identifier Extractor as the handler uses it: unmarshal the
raw JSON into `eventIdentfier` and read its `Event` field; `none` is the
hard failure (the handler logs and returns). -/
def eventIdentifierOf (j : Json) : Option String :=
  (unmarshalEventIdentfier j EventIdentfier.zero).map (·.event)

/-- Log levels of `slog` as the handlers use them. -/
inductive LogLevel where
  | info : LogLevel
  | error : LogLevel
deriving Repr, DecidableEq

/-- One structured log record: level and message text (the extra
attributes carry request data and environment values, not control flow). -/
structure LogEntry where
  level : LogLevel
  msg : String
deriving Repr, DecidableEq

/-- An inbound HTTP request as the handlers observe it: the body is
`some j` when it is valid JSON parsing to `j`, `none` when reading or
JSON-decoding it fails (main.go:105). -/
structure Request where
  body : Option Json

/-- The observable HTTP response: the effective status (200 unless
`WriteHeader` was called), the `Content-Type` header if the handler added
one, and the JSON body if one was successfully encoded onto the wire. -/
structure HttpResponse where
  status : Nat
  contentType : Option String
  body : Option Json

/-- The three arms of the `switch eventIdentfier.Event` (main.go:115). -/
inductive EventBranch where
  | pending : EventBranch
  | success : EventBranch
  | unrecognized : EventBranch
deriving Repr, DecidableEq

/-- Which arm of the switch a given `event` string selects. -/
def branchOf (e : String) : EventBranch :=
  if e = "paymentrequest.pending" then .pending
  else if e = "paymentrequest.success" then .success
  else .unrecognized

/-- The health endpoint's response value (main.go:88). -/
def healthBody : Json := .obj [("data", .str "Hello from localhost:3000")]

/-- `HealthCheck` (main.go:86-93).  `encodeOk` says whether writing the
JSON response to the wire succeeds; on failure the error is logged and the
handler returns.  The request is ignored by the handler body. -/
def HealthCheck (_r : Request) (encodeOk : Bool) :
    HttpResponse × List LogEntry :=
  if encodeOk then
    ({ status := 200, contentType := none, body := some healthBody }, [])
  else
    ({ status := 200, contentType := none, body := none },
     [⟨.error, "error encoding data to send as response"⟩])

/-- Response payload of the pending branch (main.go:125);
`json.Marshal` writes map keys in sorted order. -/
def pendingResponse (p : PaymentPending) : Json :=
  .obj [("amount", .num p.data.amount), ("event type", .str p.event)]

/-- Response payload of the success branch (main.go:140). -/
def successResponse (p : PaymentSuccessful) : Json :=
  .obj [("description", .str p.data.description), ("event type", .str p.event)]

/-- `HandleDynamicAPI` (main.go:95-149).  `encodeOk` says whether the
`json.NewEncoder(w).Encode` call on the taken branch succeeds.  Mirrors
the source line by line: decode the body into `json.RawMessage`, unmarshal
the `eventIdentfier`, switch on the event string; each early `return`
leaves the response at the transport default (status 200, nothing
written). -/
def HandleDynamicAPI (r : Request) (encodeOk : Bool) :
    HttpResponse × List LogEntry :=
  let connected : LogEntry := ⟨.info, "This API is connected"⟩
  match r.body with
  | none =>
      ({ status := 200, contentType := none, body := none },
       [connected, ⟨.error, "error decoding json response"⟩])
  | some jsonData =>
      match unmarshalEventIdentfier jsonData EventIdentfier.zero with
      | none =>
          ({ status := 200, contentType := none, body := none },
           [connected, ⟨.error, "error unmarshalling json data message"⟩])
      | some ident =>
          match branchOf ident.event with
          | .pending =>
              let hook : LogEntry := ⟨.info, "payment pending hook event"⟩
              match unmarshalPaymentPending jsonData PaymentPending.zero with
              | none =>
                  ({ status := 200, contentType := none, body := none },
                   [connected, hook,
                    ⟨.error, "error marshalling pending payment data"⟩])
              | some pp =>
                  if encodeOk then
                    ({ status := 200, contentType := some "application/json",
                       body := some (pendingResponse pp) },
                     [connected, hook,
                      ⟨.info, "pending response data unmarshalled successfully"⟩])
                  else
                    ({ status := 200, contentType := some "application/json",
                       body := none },
                     [connected, hook,
                      ⟨.error, "error encoding data to send as response"⟩])
          | .success =>
              let hook : LogEntry := ⟨.info, "payment successful hook event"⟩
              match unmarshalPaymentSuccessful jsonData PaymentSuccessful.zero with
              | none =>
                  ({ status := 200, contentType := none, body := none },
                   [connected, hook,
                    ⟨.error, "error marshalling successful payment data"⟩])
              | some ps =>
                  if encodeOk then
                    ({ status := 200, contentType := some "application/json",
                       body := some (successResponse ps) },
                     [connected, hook,
                      ⟨.info, "success response data unmarshalled successfully"⟩])
                  else
                    ({ status := 200, contentType := some "application/json",
                       body := none },
                     [connected, hook])
          | .unrecognized =>
              ({ status := 500, contentType := none, body := none },
               [connected, ⟨.info, "no event type found"⟩])

/-! ### Well-typedness of a JSON value against a declared Go field type

`okX v` holds exactly when unmarshalling `v` into a field of type `X`
succeeds; by the `null`-is-a-no-op rule this never depends on the field's
current value, which is what makes absent and ill-typed fields the only
two interesting cases. -/

def okStr : Json → Bool
  | .null => true
  | .str _ => true
  | _ => false

def okInt : Json → Bool
  | .null => true
  | .num _ => true
  | _ => false

def okBool : Json → Bool
  | .null => true
  | .bool _ => true
  | _ => false

def okListAny : Json → Bool
  | .null => true
  | .arr _ => true
  | _ => false

def okTime : Json → Bool
  | .null => true
  | .str s => rfc3339Valid s
  | _ => false

/-- Well-typedness of one key/value pair against `eventIdentfier`. -/
def wtIdentField (k : String) (v : Json) : Bool :=
  if eqFold k "event" then okStr v else true

/-- Well-typedness of one key/value pair against `paymentPending.Data`. -/
def wtPendingDataField (k : String) (v : Json) : Bool :=
  if eqFold k "id" then okInt v
  else if eqFold k "domain" then okStr v
  else if eqFold k "amount" then okInt v
  else if eqFold k "currency" then okStr v
  else if eqFold k "due_date" then true
  else if eqFold k "has_invoice" then okBool v
  else if eqFold k "invoice_number" then true
  else if eqFold k "description" then okStr v
  else if eqFold k "pdf_url" then true
  else if eqFold k "line_items" then okListAny v
  else if eqFold k "tax" then okListAny v
  else if eqFold k "request_code" then okStr v
  else if eqFold k "status" then okStr v
  else if eqFold k "paid" then okBool v
  else if eqFold k "paid_at" then true
  else if eqFold k "metadata" then true
  else if eqFold k "notifications" then okListAny v
  else if eqFold k "offline_reference" then okStr v
  else if eqFold k "customer" then okInt v
  else if eqFold k "created_at" then okTime v
  else true

/-- Well-typedness of a JSON value against the `Data` field of
`paymentPending`. -/
def okPendingData : Json → Bool
  | .null => true
  | .obj fs => fs.all fun kv => wtPendingDataField kv.1 kv.2
  | _ => false

/-- Well-typedness of one key/value pair against `paymentPending`. -/
def wtPendingField (k : String) (v : Json) : Bool :=
  if eqFold k "event" then okStr v
  else if eqFold k "data" then okPendingData v
  else true

/-- Well-typedness of one key/value pair against one `Notifications`
element of `paymentSuccessful.Data`. -/
def wtNotifField (k : String) (v : Json) : Bool :=
  if eqFold k "sent_at" then okTime v
  else if eqFold k "channel" then okStr v
  else true

/-- Well-typedness of a JSON value against one `Notifications` element. -/
def okNotif : Json → Bool
  | .null => true
  | .obj fs => fs.all fun kv => wtNotifField kv.1 kv.2
  | _ => false

/-- Well-typedness of a JSON value against the `[]struct{...}`
`Notifications` field. -/
def okNotifList : Json → Bool
  | .null => true
  | .arr xs => xs.all okNotif
  | _ => false

/-- Well-typedness of one key/value pair against
`paymentSuccessful.Data`. -/
def wtSuccessDataField (k : String) (v : Json) : Bool :=
  if eqFold k "id" then okInt v
  else if eqFold k "domain" then okStr v
  else if eqFold k "amount" then okInt v
  else if eqFold k "currency" then okStr v
  else if eqFold k "due_date" then true
  else if eqFold k "has_invoice" then okBool v
  else if eqFold k "invoice_number" then true
  else if eqFold k "description" then okStr v
  else if eqFold k "pdf_url" then true
  else if eqFold k "line_items" then okListAny v
  else if eqFold k "tax" then okListAny v
  else if eqFold k "request_code" then okStr v
  else if eqFold k "status" then okStr v
  else if eqFold k "paid" then okBool v
  else if eqFold k "paid_at" then okTime v
  else if eqFold k "metadata" then true
  else if eqFold k "notifications" then okNotifList v
  else if eqFold k "offline_reference" then okStr v
  else if eqFold k "customer" then okInt v
  else if eqFold k "created_at" then okTime v
  else true

/-- Well-typedness of a JSON value against the `Data` field of
`paymentSuccessful`. -/
def okSuccessData : Json → Bool
  | .null => true
  | .obj fs => fs.all fun kv => wtSuccessDataField kv.1 kv.2
  | _ => false

/-- Well-typedness of one key/value pair against `paymentSuccessful`. -/
def wtSuccessField (k : String) (v : Json) : Bool :=
  if eqFold k "event" then okStr v
  else if eqFold k "data" then okSuccessData v
  else true

/-! ### Generic facts about the object-decoding fold -/

/-- If the success of one field update never depends on the struct's
current value, the fold succeeds exactly when every present field is
well typed. -/
theorem unmarshalFields_isSome {T : Type}
    (upd : T → String → Json → Option T) (wt : String → Json → Bool)
    (h : ∀ t k v, (upd t k v).isSome = wt k v) :
    ∀ (fs : List (String × Json)) (t : T),
      (unmarshalFields upd t fs).isSome = fs.all fun kv => wt kv.1 kv.2 := by
  intro fs
  induction fs with
  | nil => intro t; simp [unmarshalFields]
  | cons kv rest ih =>
    intro t
    obtain ⟨k, v⟩ := kv
    have hw := h t k v
    cases hu : upd t k v with
    | none =>
      rw [hu] at hw
      simp [unmarshalFields, hu, ← hw]
    | some t' =>
      rw [hu] at hw
      simp [unmarshalFields, hu, ← hw, ih t']

/-- A projection that no present key's update can touch survives the
fold unchanged. -/
theorem unmarshalFields_preserve {T A : Type}
    (upd : T → String → Json → Option T) (proj : T → A) (P : String → Bool)
    (h : ∀ t k v t', upd t k v = some t' → P k = false → proj t' = proj t) :
    ∀ (fs : List (String × Json)) (t t' : T),
      unmarshalFields upd t fs = some t' →
      (∀ kv ∈ fs, P kv.1 = false) → proj t' = proj t := by
  intro fs
  induction fs with
  | nil =>
    intro t t' hf _
    simp [unmarshalFields] at hf
    rw [hf]
  | cons kv rest ih =>
    intro t t' hf hP
    obtain ⟨k, v⟩ := kv
    cases hu : upd t k v with
    | none => simp [unmarshalFields, hu] at hf
    | some tm =>
      simp only [unmarshalFields, hu, Option.bind_some] at hf
      have h1 := h t k v tm hu (hP ⟨k, v⟩ (List.mem_cons_self _ _))
      have h2 := ih tm t' hf fun kv hm => hP kv (List.mem_cons_of_mem _ hm)
      rw [h2, h1]

/-- Two folds over the same field list keep agreeing on projections
`e1`/`e2` whenever each single update does. -/
theorem unmarshalFields_agree {T1 T2 A : Type}
    (upd1 : T1 → String → Json → Option T1)
    (upd2 : T2 → String → Json → Option T2)
    (e1 : T1 → A) (e2 : T2 → A)
    (h : ∀ t1 t2 k v t1' t2', e1 t1 = e2 t2 →
      upd1 t1 k v = some t1' → upd2 t2 k v = some t2' → e1 t1' = e2 t2') :
    ∀ (fs : List (String × Json)) (t1 : T1) (t2 : T2) (t1' : T1) (t2' : T2),
      e1 t1 = e2 t2 →
      unmarshalFields upd1 t1 fs = some t1' →
      unmarshalFields upd2 t2 fs = some t2' →
      e1 t1' = e2 t2' := by
  intro fs
  induction fs with
  | nil =>
    intro t1 t2 t1' t2' he h1 h2
    simp [unmarshalFields] at h1 h2
    rw [h1, h2] at he
    exact he
  | cons kv rest ih =>
    intro t1 t2 t1' t2' he h1 h2
    obtain ⟨k, v⟩ := kv
    cases hu1 : upd1 t1 k v with
    | none => simp [unmarshalFields, hu1] at h1
    | some m1 =>
      cases hu2 : upd2 t2 k v with
      | none => simp [unmarshalFields, hu2] at h2
      | some m2 =>
        simp only [unmarshalFields, hu1, hu2, Option.bind_some] at h1 h2
        exact ih m1 m2 t1' t2' (h t1 t2 k v m1 m2 he hu1 hu2) h1 h2

theorem isSome_map {A B : Type} (f : A → B) (o : Option A) :
    (o.map f).isSome = o.isSome := by
  cases o <;> rfl

theorem goStr_isSome (cur : String) (v : Json) :
    (goStr cur v).isSome = okStr v := by
  cases v <;> rfl

theorem goInt_isSome (cur : Int) (v : Json) :
    (goInt cur v).isSome = okInt v := by
  cases v <;> rfl

theorem goBool_isSome (cur : Bool) (v : Json) :
    (goBool cur v).isSome = okBool v := by
  cases v <;> rfl

theorem goListAny_isSome (cur : List Json) (v : Json) :
    (goListAny cur v).isSome = okListAny v := by
  cases v <;> rfl

theorem goTime_isSome (cur : GoTime) (v : Json) :
    (goTime cur v).isSome = okTime v := by
  cases v <;> simp only [goTime, okTime, Option.isSome_some, Option.isSome_none]
  case str s => cases h : rfc3339Valid s <;> simp [h]

theorem updEventIdentfier_isSome (t : EventIdentfier) (k : String) (v : Json) :
    (updEventIdentfier t k v).isSome = wtIdentField k v := by
  unfold updEventIdentfier wtIdentField
  split_ifs <;> simp [isSome_map, goStr_isSome]

theorem updNotification_isSome (t : Notification) (k : String) (v : Json) :
    (updNotification t k v).isSome = wtNotifField k v := by
  unfold updNotification wtNotifField
  split_ifs <;> simp [isSome_map, goStr_isSome, goTime_isSome]

theorem unmarshalNotification_isSome (j : Json) (t : Notification) :
    (unmarshalNotification j t).isSome = okNotif j := by
  cases j <;>
    simp [unmarshalNotification, okNotif,
      unmarshalFields_isSome updNotification wtNotifField
        updNotification_isSome]

theorem decodeNotifElems_isSome (xs : List Json) :
    (decodeNotifElems xs).isSome = xs.all okNotif := by
  induction xs with
  | nil => rfl
  | cons x xs ih =>
    have hw := unmarshalNotification_isSome x Notification.zero
    cases hu : unmarshalNotification x Notification.zero with
    | none =>
      rw [hu] at hw
      simp [decodeNotifElems, hu, ← hw]
    | some n =>
      rw [hu] at hw
      cases hd : decodeNotifElems xs with
      | none =>
        rw [hd] at ih
        simp [decodeNotifElems, hu, hd, ← hw, ← ih]
      | some ns =>
        rw [hd] at ih
        simp [decodeNotifElems, hu, hd, ← hw, ← ih]

theorem goNotifList_isSome (cur : List Notification) (v : Json) :
    (goNotifList cur v).isSome = okNotifList v := by
  cases v <;> simp [goNotifList, okNotifList, decodeNotifElems_isSome]

set_option maxHeartbeats 1000000 in
theorem updPendingData_isSome (t : PendingData) (k : String) (v : Json) :
    (updPendingData t k v).isSome = wtPendingDataField k v := by
  unfold updPendingData wtPendingDataField
  simp only [goAny, apply_ite Option.isSome, isSome_map, goStr_isSome,
    goInt_isSome, goBool_isSome, goListAny_isSome, goTime_isSome,
    Option.isSome_some]

theorem goPendingData_isSome (cur : PendingData) (v : Json) :
    (goPendingData cur v).isSome = okPendingData v := by
  cases v <;>
    simp [goPendingData, okPendingData,
      unmarshalFields_isSome updPendingData wtPendingDataField
        updPendingData_isSome]

theorem updPaymentPending_isSome (t : PaymentPending) (k : String) (v : Json) :
    (updPaymentPending t k v).isSome = wtPendingField k v := by
  unfold updPaymentPending wtPendingField
  split_ifs <;> simp [isSome_map, goStr_isSome, goPendingData_isSome]

set_option maxHeartbeats 1000000 in
theorem updSuccessData_isSome (t : SuccessData) (k : String) (v : Json) :
    (updSuccessData t k v).isSome = wtSuccessDataField k v := by
  unfold updSuccessData wtSuccessDataField
  simp only [goAny, apply_ite Option.isSome, isSome_map, goStr_isSome,
    goInt_isSome, goBool_isSome, goListAny_isSome, goTime_isSome,
    goNotifList_isSome, Option.isSome_some]

theorem goSuccessData_isSome (cur : SuccessData) (v : Json) :
    (goSuccessData cur v).isSome = okSuccessData v := by
  cases v <;>
    simp [goSuccessData, okSuccessData,
      unmarshalFields_isSome updSuccessData wtSuccessDataField
        updSuccessData_isSome]

theorem updPaymentSuccessful_isSome (t : PaymentSuccessful) (k : String)
    (v : Json) :
    (updPaymentSuccessful t k v).isSome = wtSuccessField k v := by
  unfold updPaymentSuccessful wtSuccessField
  split_ifs <;> simp [isSome_map, goStr_isSome, goSuccessData_isSome]

set_option maxHeartbeats 1000000 in
/-- One `paymentPending.Data` field update can only change `amount` when
the key folds to the `amount` tag. -/
theorem updPendingData_amount (t : PendingData) (k : String) (v : Json)
    (t' : PendingData) (h : updPendingData t k v = some t')
    (hk : eqFold k "amount" = false) : t'.amount = t.amount := by
  unfold updPendingData at h
  by_cases h1 : eqFold k "id" = true
  · rw [if_pos h1] at h
    obtain ⟨x, _, rfl⟩ := Option.map_eq_some'.mp h
    rfl
  · rw [if_neg h1] at h
    by_cases h2 : eqFold k "domain" = true
    · rw [if_pos h2] at h
      obtain ⟨x, _, rfl⟩ := Option.map_eq_some'.mp h
      rfl
    · rw [if_neg h2] at h
      by_cases h3 : eqFold k "amount" = true
      · rw [if_pos h3] at h
        simp [hk] at h3
      · rw [if_neg h3] at h
        by_cases h4 : eqFold k "currency" = true
        · rw [if_pos h4] at h
          obtain ⟨x, _, rfl⟩ := Option.map_eq_some'.mp h
          rfl
        · rw [if_neg h4] at h
          by_cases h5 : eqFold k "due_date" = true
          · rw [if_pos h5] at h
            obtain ⟨x, _, rfl⟩ := Option.map_eq_some'.mp h
            rfl
          · rw [if_neg h5] at h
            by_cases h6 : eqFold k "has_invoice" = true
            · rw [if_pos h6] at h
              obtain ⟨x, _, rfl⟩ := Option.map_eq_some'.mp h
              rfl
            · rw [if_neg h6] at h
              by_cases h7 : eqFold k "invoice_number" = true
              · rw [if_pos h7] at h
                obtain ⟨x, _, rfl⟩ := Option.map_eq_some'.mp h
                rfl
              · rw [if_neg h7] at h
                by_cases h8 : eqFold k "description" = true
                · rw [if_pos h8] at h
                  obtain ⟨x, _, rfl⟩ := Option.map_eq_some'.mp h
                  rfl
                · rw [if_neg h8] at h
                  by_cases h9 : eqFold k "pdf_url" = true
                  · rw [if_pos h9] at h
                    obtain ⟨x, _, rfl⟩ := Option.map_eq_some'.mp h
                    rfl
                  · rw [if_neg h9] at h
                    by_cases h10 : eqFold k "line_items" = true
                    · rw [if_pos h10] at h
                      obtain ⟨x, _, rfl⟩ := Option.map_eq_some'.mp h
                      rfl
                    · rw [if_neg h10] at h
                      by_cases h11 : eqFold k "tax" = true
                      · rw [if_pos h11] at h
                        obtain ⟨x, _, rfl⟩ := Option.map_eq_some'.mp h
                        rfl
                      · rw [if_neg h11] at h
                        by_cases h12 : eqFold k "request_code" = true
                        · rw [if_pos h12] at h
                          obtain ⟨x, _, rfl⟩ := Option.map_eq_some'.mp h
                          rfl
                        · rw [if_neg h12] at h
                          by_cases h13 : eqFold k "status" = true
                          · rw [if_pos h13] at h
                            obtain ⟨x, _, rfl⟩ := Option.map_eq_some'.mp h
                            rfl
                          · rw [if_neg h13] at h
                            by_cases h14 : eqFold k "paid" = true
                            · rw [if_pos h14] at h
                              obtain ⟨x, _, rfl⟩ := Option.map_eq_some'.mp h
                              rfl
                            · rw [if_neg h14] at h
                              by_cases h15 : eqFold k "paid_at" = true
                              · rw [if_pos h15] at h
                                obtain ⟨x, _, rfl⟩ := Option.map_eq_some'.mp h
                                rfl
                              · rw [if_neg h15] at h
                                by_cases h16 : eqFold k "metadata" = true
                                · rw [if_pos h16] at h
                                  obtain ⟨x, _, rfl⟩ := Option.map_eq_some'.mp h
                                  rfl
                                · rw [if_neg h16] at h
                                  by_cases h17 : eqFold k "notifications" = true
                                  · rw [if_pos h17] at h
                                    obtain ⟨x, _, rfl⟩ := Option.map_eq_some'.mp h
                                    rfl
                                  · rw [if_neg h17] at h
                                    by_cases h18 : eqFold k "offline_reference" = true
                                    · rw [if_pos h18] at h
                                      obtain ⟨x, _, rfl⟩ := Option.map_eq_some'.mp h
                                      rfl
                                    · rw [if_neg h18] at h
                                      by_cases h19 : eqFold k "customer" = true
                                      · rw [if_pos h19] at h
                                        obtain ⟨x, _, rfl⟩ := Option.map_eq_some'.mp h
                                        rfl
                                      · rw [if_neg h19] at h
                                        by_cases h20 : eqFold k "created_at" = true
                                        · rw [if_pos h20] at h
                                          obtain ⟨x, _, rfl⟩ := Option.map_eq_some'.mp h
                                          rfl
                                        · rw [if_neg h20] at h
                                          obtain rfl := Option.some.inj h
                                          rfl

set_option maxHeartbeats 1000000 in
/-- One `paymentSuccessful.Data` field update can only change
`description` when the key folds to the `description` tag. -/
theorem updSuccessData_description (t : SuccessData) (k : String) (v : Json)
    (t' : SuccessData) (h : updSuccessData t k v = some t')
    (hk : eqFold k "description" = false) : t'.description = t.description := by
  unfold updSuccessData at h
  by_cases h1 : eqFold k "id" = true
  · rw [if_pos h1] at h
    obtain ⟨x, _, rfl⟩ := Option.map_eq_some'.mp h
    rfl
  · rw [if_neg h1] at h
    by_cases h2 : eqFold k "domain" = true
    · rw [if_pos h2] at h
      obtain ⟨x, _, rfl⟩ := Option.map_eq_some'.mp h
      rfl
    · rw [if_neg h2] at h
      by_cases h3 : eqFold k "amount" = true
      · rw [if_pos h3] at h
        obtain ⟨x, _, rfl⟩ := Option.map_eq_some'.mp h
        rfl
      · rw [if_neg h3] at h
        by_cases h4 : eqFold k "currency" = true
        · rw [if_pos h4] at h
          obtain ⟨x, _, rfl⟩ := Option.map_eq_some'.mp h
          rfl
        · rw [if_neg h4] at h
          by_cases h5 : eqFold k "due_date" = true
          · rw [if_pos h5] at h
            obtain ⟨x, _, rfl⟩ := Option.map_eq_some'.mp h
            rfl
          · rw [if_neg h5] at h
            by_cases h6 : eqFold k "has_invoice" = true
            · rw [if_pos h6] at h
              obtain ⟨x, _, rfl⟩ := Option.map_eq_some'.mp h
              rfl
            · rw [if_neg h6] at h
              by_cases h7 : eqFold k "invoice_number" = true
              · rw [if_pos h7] at h
                obtain ⟨x, _, rfl⟩ := Option.map_eq_some'.mp h
                rfl
              · rw [if_neg h7] at h
                by_cases h8 : eqFold k "description" = true
                · rw [if_pos h8] at h
                  simp [hk] at h8
                · rw [if_neg h8] at h
                  by_cases h9 : eqFold k "pdf_url" = true
                  · rw [if_pos h9] at h
                    obtain ⟨x, _, rfl⟩ := Option.map_eq_some'.mp h
                    rfl
                  · rw [if_neg h9] at h
                    by_cases h10 : eqFold k "line_items" = true
                    · rw [if_pos h10] at h
                      obtain ⟨x, _, rfl⟩ := Option.map_eq_some'.mp h
                      rfl
                    · rw [if_neg h10] at h
                      by_cases h11 : eqFold k "tax" = true
                      · rw [if_pos h11] at h
                        obtain ⟨x, _, rfl⟩ := Option.map_eq_some'.mp h
                        rfl
                      · rw [if_neg h11] at h
                        by_cases h12 : eqFold k "request_code" = true
                        · rw [if_pos h12] at h
                          obtain ⟨x, _, rfl⟩ := Option.map_eq_some'.mp h
                          rfl
                        · rw [if_neg h12] at h
                          by_cases h13 : eqFold k "status" = true
                          · rw [if_pos h13] at h
                            obtain ⟨x, _, rfl⟩ := Option.map_eq_some'.mp h
                            rfl
                          · rw [if_neg h13] at h
                            by_cases h14 : eqFold k "paid" = true
                            · rw [if_pos h14] at h
                              obtain ⟨x, _, rfl⟩ := Option.map_eq_some'.mp h
                              rfl
                            · rw [if_neg h14] at h
                              by_cases h15 : eqFold k "paid_at" = true
                              · rw [if_pos h15] at h
                                obtain ⟨x, _, rfl⟩ := Option.map_eq_some'.mp h
                                rfl
                              · rw [if_neg h15] at h
                                by_cases h16 : eqFold k "metadata" = true
                                · rw [if_pos h16] at h
                                  obtain ⟨x, _, rfl⟩ := Option.map_eq_some'.mp h
                                  rfl
                                · rw [if_neg h16] at h
                                  by_cases h17 : eqFold k "notifications" = true
                                  · rw [if_pos h17] at h
                                    obtain ⟨x, _, rfl⟩ := Option.map_eq_some'.mp h
                                    rfl
                                  · rw [if_neg h17] at h
                                    by_cases h18 : eqFold k "offline_reference" = true
                                    · rw [if_pos h18] at h
                                      obtain ⟨x, _, rfl⟩ := Option.map_eq_some'.mp h
                                      rfl
                                    · rw [if_neg h18] at h
                                      by_cases h19 : eqFold k "customer" = true
                                      · rw [if_pos h19] at h
                                        obtain ⟨x, _, rfl⟩ := Option.map_eq_some'.mp h
                                        rfl
                                      · rw [if_neg h19] at h
                                        by_cases h20 : eqFold k "created_at" = true
                                        · rw [if_pos h20] at h
                                          obtain ⟨x, _, rfl⟩ := Option.map_eq_some'.mp h
                                          rfl
                                        · rw [if_neg h20] at h
                                          obtain rfl := Option.some.inj h
                                          rfl

/-- Decoding an object whose `event`-matching values are all `null` into
`eventIdentfier` is the identity (each such value is a no-op, every other
key is ignored). -/
theorem identFold_nullEvent (fs : List (String × Json)) :
    ∀ t : EventIdentfier,
      (∀ kv ∈ fs, eqFold kv.1 "event" = true → kv.2 = Json.null) →
      unmarshalFields updEventIdentfier t fs = some t := by
  induction fs with
  | nil => intro t _; rfl
  | cons kv rest ih =>
    intro t h
    obtain ⟨k, v⟩ := kv
    have hrest := fun kv hm => h kv (List.mem_cons_of_mem _ hm)
    by_cases hk : eqFold k "event"
    · have hv := h ⟨k, v⟩ (List.mem_cons_self _ _) hk
      subst hv
      simp [unmarshalFields, updEventIdentfier, hk, goStr, ih t hrest]
    · simp [unmarshalFields, updEventIdentfier, hk, ih t hrest]

/-- One-step event agreement between the `eventIdentfier` decode and the
`paymentPending` decode. -/
theorem upd_agree_pending (t1 : EventIdentfier) (t2 : PaymentPending)
    (k : String) (v : Json) (t1' : EventIdentfier) (t2' : PaymentPending)
    (he : t1.event = t2.event)
    (h1 : updEventIdentfier t1 k v = some t1')
    (h2 : updPaymentPending t2 k v = some t2') : t1'.event = t2'.event := by
  unfold updEventIdentfier at h1
  unfold updPaymentPending at h2
  by_cases hk : eqFold k "event"
  · rw [if_pos hk] at h1 h2
    obtain ⟨s1, hs1, rfl⟩ := Option.map_eq_some'.mp h1
    obtain ⟨s2, hs2, rfl⟩ := Option.map_eq_some'.mp h2
    rw [he] at hs1
    exact Option.some.inj (hs1.symm.trans hs2)
  · rw [if_neg hk] at h1 h2
    obtain rfl := Option.some.inj h1
    by_cases hd : eqFold k "data"
    · rw [if_pos hd] at h2
      obtain ⟨d, _, rfl⟩ := Option.map_eq_some'.mp h2
      exact he
    · rw [if_neg hd] at h2
      obtain rfl := Option.some.inj h2
      exact he

/-- One-step event agreement between the `eventIdentfier` decode and the
`paymentSuccessful` decode. -/
theorem upd_agree_success (t1 : EventIdentfier) (t2 : PaymentSuccessful)
    (k : String) (v : Json) (t1' : EventIdentfier) (t2' : PaymentSuccessful)
    (he : t1.event = t2.event)
    (h1 : updEventIdentfier t1 k v = some t1')
    (h2 : updPaymentSuccessful t2 k v = some t2') : t1'.event = t2'.event := by
  unfold updEventIdentfier at h1
  unfold updPaymentSuccessful at h2
  by_cases hk : eqFold k "event"
  · rw [if_pos hk] at h1 h2
    obtain ⟨s1, hs1, rfl⟩ := Option.map_eq_some'.mp h1
    obtain ⟨s2, hs2, rfl⟩ := Option.map_eq_some'.mp h2
    rw [he] at hs1
    exact Option.some.inj (hs1.symm.trans hs2)
  · rw [if_neg hk] at h1 h2
    obtain rfl := Option.some.inj h1
    by_cases hd : eqFold k "data"
    · rw [if_pos hd] at h2
      obtain ⟨d, _, rfl⟩ := Option.map_eq_some'.mp h2
      exact he
    · rw [if_neg hd] at h2
      obtain rfl := Option.some.inj h2
      exact he

/-- Whatever event string the envelope decode extracted, the full
`paymentPending` decode of the same JSON stores the same string. -/
theorem event_agree_pending (j : Json) (i : EventIdentfier)
    (p : PaymentPending)
    (hi : unmarshalEventIdentfier j EventIdentfier.zero = some i)
    (hp : unmarshalPaymentPending j PaymentPending.zero = some p) :
    i.event = p.event := by
  cases j with
  | null =>
    obtain rfl := Option.some.inj hi
    obtain rfl := Option.some.inj hp
    rfl
  | obj fs =>
    exact unmarshalFields_agree updEventIdentfier updPaymentPending
      EventIdentfier.event PaymentPending.event upd_agree_pending
      fs EventIdentfier.zero PaymentPending.zero i p rfl hi hp
  | bool b => simp [unmarshalEventIdentfier] at hi
  | num n => simp [unmarshalEventIdentfier] at hi
  | str s => simp [unmarshalEventIdentfier] at hi
  | arr xs => simp [unmarshalEventIdentfier] at hi

/-- Whatever event string the envelope decode extracted, the full
`paymentSuccessful` decode of the same JSON stores the same string. -/
theorem event_agree_success (j : Json) (i : EventIdentfier)
    (p : PaymentSuccessful)
    (hi : unmarshalEventIdentfier j EventIdentfier.zero = some i)
    (hp : unmarshalPaymentSuccessful j PaymentSuccessful.zero = some p) :
    i.event = p.event := by
  cases j with
  | null =>
    obtain rfl := Option.some.inj hi
    obtain rfl := Option.some.inj hp
    rfl
  | obj fs =>
    exact unmarshalFields_agree updEventIdentfier updPaymentSuccessful
      EventIdentfier.event PaymentSuccessful.event upd_agree_success
      fs EventIdentfier.zero PaymentSuccessful.zero i p rfl hi hp
  | bool b => simp [unmarshalEventIdentfier] at hi
  | num n => simp [unmarshalEventIdentfier] at hi
  | str s => simp [unmarshalEventIdentfier] at hi
  | arr xs => simp [unmarshalEventIdentfier] at hi

theorem branchOf_eq_pending (e : String) :
    branchOf e = .pending ↔ e = "paymentrequest.pending" := by
  unfold branchOf
  split_ifs <;> simp_all

theorem branchOf_eq_success (e : String) :
    branchOf e = .success ↔ e = "paymentrequest.success" := by
  unfold branchOf
  split_ifs <;> simp_all

theorem branchOf_eq_unrecognized (e : String) :
    branchOf e = .unrecognized ↔
      e ≠ "paymentrequest.pending" ∧ e ≠ "paymentrequest.success" := by
  unfold branchOf
  split_ifs <;> simp_all

/-! ### Claim theorems -/

/-- C1: for every payload that is valid JSON, whose top-level `event`
field equals `"paymentrequest.pending"`, and whose body decodes without
error into the Pending Payment Event shape, dispatch returns HTTP status
200 with response body `{"event type": <payload's event string>,
"amount": <payload's data.amount integer>}`. -/
theorem C1_pending_dispatch (j : Json) (pp : PaymentPending)
    (hid : eventIdentifierOf j = some "paymentrequest.pending")
    (hpp : unmarshalPaymentPending j PaymentPending.zero = some pp) :
    HandleDynamicAPI ⟨some j⟩ true =
      ({ status := 200, contentType := some "application/json",
         body := some (Json.obj [("amount", Json.num pp.data.amount),
           ("event type", Json.str "paymentrequest.pending")]) },
       [⟨.info, "This API is connected"⟩,
        ⟨.info, "payment pending hook event"⟩,
        ⟨.info, "pending response data unmarshalled successfully"⟩]) := by
  unfold eventIdentifierOf at hid
  cases hi : unmarshalEventIdentfier j EventIdentfier.zero with
  | none => rw [hi] at hid; simp at hid
  | some i =>
    rw [hi] at hid
    simp only [Option.map_some'] at hid
    have hev : i.event = "paymentrequest.pending" := Option.some.inj hid
    have hevent : pp.event = "paymentrequest.pending" := by
      rw [← event_agree_pending j i pp hi hpp, hev]
    simp [HandleDynamicAPI, hi, hev, branchOf, hpp, pendingResponse, hevent]

/-- Concrete pending payload used as the C1 witness input. -/
def jPendingEx : Json :=
  .obj [("event", .str "paymentrequest.pending"),
        ("data", .obj [("id", .num 1), ("amount", .num 5000)])]

/-- The struct value `jPendingEx` decodes to. -/
def ppEx : PaymentPending :=
  { event := "paymentrequest.pending",
    data := { PendingData.zero with id := 1, amount := 5000 } }

/-- Witness for C1 at a concrete pending payload. -/
theorem C1_pending_dispatch_witness :
    HandleDynamicAPI ⟨some jPendingEx⟩ true =
      ({ status := 200, contentType := some "application/json",
         body := some (Json.obj [("amount", Json.num 5000),
           ("event type", Json.str "paymentrequest.pending")]) },
       [⟨.info, "This API is connected"⟩,
        ⟨.info, "payment pending hook event"⟩,
        ⟨.info, "pending response data unmarshalled successfully"⟩]) :=
  C1_pending_dispatch jPendingEx ppEx (by rfl) (by rfl)

/-- C2: for every payload that is valid JSON, whose top-level `event`
field equals `"paymentrequest.success"`, and whose body decodes without
error into the Successful Payment Event shape, dispatch returns HTTP
status 200 with response body `{"event type": <payload's event string>,
"description": <payload's data.description string>}`. -/
theorem C2_success_dispatch (j : Json) (ps : PaymentSuccessful)
    (hid : eventIdentifierOf j = some "paymentrequest.success")
    (hps : unmarshalPaymentSuccessful j PaymentSuccessful.zero = some ps) :
    HandleDynamicAPI ⟨some j⟩ true =
      ({ status := 200, contentType := some "application/json",
         body := some (Json.obj [("description", Json.str ps.data.description),
           ("event type", Json.str "paymentrequest.success")]) },
       [⟨.info, "This API is connected"⟩,
        ⟨.info, "payment successful hook event"⟩,
        ⟨.info, "success response data unmarshalled successfully"⟩]) := by
  unfold eventIdentifierOf at hid
  cases hi : unmarshalEventIdentfier j EventIdentfier.zero with
  | none => rw [hi] at hid; simp at hid
  | some i =>
    rw [hi] at hid
    simp only [Option.map_some'] at hid
    have hev : i.event = "paymentrequest.success" := Option.some.inj hid
    have hevent : ps.event = "paymentrequest.success" := by
      rw [← event_agree_success j i ps hi hps, hev]
    simp [HandleDynamicAPI, hi, hev, branchOf, hps, successResponse, hevent]

/-- Concrete success payload used as the C2 witness input. -/
def jSuccessEx : Json :=
  .obj [("event", .str "paymentrequest.success"),
        ("data", .obj [("id", .num 2), ("description", .str "Invoice 2")])]

/-- The struct value `jSuccessEx` decodes to. -/
def psEx : PaymentSuccessful :=
  { event := "paymentrequest.success",
    data := { SuccessData.zero with id := 2, description := "Invoice 2" } }

/-- Witness for C2 at a concrete success payload. -/
theorem C2_success_dispatch_witness :
    HandleDynamicAPI ⟨some jSuccessEx⟩ true =
      ({ status := 200, contentType := some "application/json",
         body := some (Json.obj [("description", Json.str "Invoice 2"),
           ("event type", Json.str "paymentrequest.success")]) },
       [⟨.info, "This API is connected"⟩,
        ⟨.info, "payment successful hook event"⟩,
        ⟨.info, "success response data unmarshalled successfully"⟩]) :=
  C2_success_dispatch jSuccessEx psEx (by rfl) (by rfl)

/-- C3: for every valid-JSON payload whose extracted `event` field is
neither `"paymentrequest.pending"` nor `"paymentrequest.success"`,
dispatch returns HTTP status 500 with an empty response body and no
`Content-Type` header; moreover a `Content-Type: application/json` header
appears only on the two recognized-event success paths. -/
theorem C3_unrecognized_500 :
    (∀ (j : Json) (i : EventIdentfier) (ok : Bool),
      unmarshalEventIdentfier j EventIdentfier.zero = some i →
      i.event ≠ "paymentrequest.pending" →
      i.event ≠ "paymentrequest.success" →
      HandleDynamicAPI ⟨some j⟩ ok =
        ({ status := 500, contentType := none, body := none },
         [⟨.info, "This API is connected"⟩,
          ⟨.info, "no event type found"⟩]))
    ∧ (∀ (r : Request) (ok : Bool) (ct : String),
        (HandleDynamicAPI r ok).1.contentType = some ct →
        ct = "application/json" ∧ (HandleDynamicAPI r ok).1.status = 200 ∧
        ∃ (j : Json) (i : EventIdentfier), r.body = some j ∧
          unmarshalEventIdentfier j EventIdentfier.zero = some i ∧
          ((i.event = "paymentrequest.pending" ∧
              (unmarshalPaymentPending j PaymentPending.zero).isSome = true) ∨
           (i.event = "paymentrequest.success" ∧
              (unmarshalPaymentSuccessful j PaymentSuccessful.zero).isSome
                = true))) := by
  constructor
  · intro j i ok hi hp hs
    have hb : branchOf i.event = .unrecognized :=
      (branchOf_eq_unrecognized i.event).mpr ⟨hp, hs⟩
    simp [HandleDynamicAPI, hi, hb]
  · intro r ok ct h
    obtain ⟨b⟩ := r
    cases b with
    | none => simp [HandleDynamicAPI] at h
    | some j =>
      cases hi : unmarshalEventIdentfier j EventIdentfier.zero with
      | none => simp [HandleDynamicAPI, hi] at h
      | some i =>
        cases hb : branchOf i.event with
        | pending =>
          cases hp : unmarshalPaymentPending j PaymentPending.zero with
          | none => simp [HandleDynamicAPI, hi, hb, hp] at h
          | some pp =>
            cases ok <;> simp [HandleDynamicAPI, hi, hb, hp] at h ⊢
            · exact ⟨h.symm, Or.inl ((branchOf_eq_pending i.event).mp hb)⟩
            · exact ⟨h.symm, Or.inl ((branchOf_eq_pending i.event).mp hb)⟩
        | success =>
          cases hp : unmarshalPaymentSuccessful j PaymentSuccessful.zero with
          | none => simp [HandleDynamicAPI, hi, hb, hp] at h
          | some ps =>
            cases ok <;> simp [HandleDynamicAPI, hi, hb, hp] at h ⊢
            · exact ⟨h.symm, Or.inr ((branchOf_eq_success i.event).mp hb)⟩
            · exact ⟨h.symm, Or.inr ((branchOf_eq_success i.event).mp hb)⟩
        | unrecognized => simp [HandleDynamicAPI, hi, hb] at h

/-- Witness for C3 at the concrete payload `{"event":"unknown.kind"}`. -/
theorem C3_unrecognized_500_witness :
    HandleDynamicAPI ⟨some (.obj [("event", .str "unknown.kind")])⟩ true =
      ({ status := 500, contentType := none, body := none },
       [⟨.info, "This API is connected"⟩,
        ⟨.info, "no event type found"⟩]) :=
  C3_unrecognized_500.1 (.obj [("event", .str "unknown.kind")])
    ⟨"unknown.kind"⟩ true rfl (by decide) (by decide)

/-- C4: for every request body that is not valid JSON, the decode error is
logged and the handler returns without writing a body or an explicit
status, so the response is the transport default: 200, empty body. -/
theorem C4_malformed_payload (ok : Bool) :
    HandleDynamicAPI ⟨none⟩ ok =
      ({ status := 200, contentType := none, body := none },
       [⟨.info, "This API is connected"⟩,
        ⟨.error, "error decoding json response"⟩]) := rfl

/-- C5: for every valid-JSON payload whose `event` matches a recognized
kind but whose body fails to decode into that kind's schema, the error is
logged and the handler aborts with no body, no headers and no explicit
status written. -/
theorem C5_schema_mismatch :
    (∀ (j : Json) (i : EventIdentfier) (ok : Bool),
      unmarshalEventIdentfier j EventIdentfier.zero = some i →
      i.event = "paymentrequest.pending" →
      unmarshalPaymentPending j PaymentPending.zero = none →
      HandleDynamicAPI ⟨some j⟩ ok =
        ({ status := 200, contentType := none, body := none },
         [⟨.info, "This API is connected"⟩,
          ⟨.info, "payment pending hook event"⟩,
          ⟨.error, "error marshalling pending payment data"⟩]))
    ∧ (∀ (j : Json) (i : EventIdentfier) (ok : Bool),
      unmarshalEventIdentfier j EventIdentfier.zero = some i →
      i.event = "paymentrequest.success" →
      unmarshalPaymentSuccessful j PaymentSuccessful.zero = none →
      HandleDynamicAPI ⟨some j⟩ ok =
        ({ status := 200, contentType := none, body := none },
         [⟨.info, "This API is connected"⟩,
          ⟨.info, "payment successful hook event"⟩,
          ⟨.error, "error marshalling successful payment data"⟩])) := by
  constructor
  · intro j i ok hi hev hp
    have hb : branchOf i.event = .pending := (branchOf_eq_pending i.event).mpr hev
    simp [HandleDynamicAPI, hi, hb, hp]
  · intro j i ok hi hev hp
    have hb : branchOf i.event = .success := (branchOf_eq_success i.event).mpr hev
    simp [HandleDynamicAPI, hi, hb, hp]

/-- Witness for C5 at the concrete mismatching payload
`{"event":"paymentrequest.pending","data":{"amount":"x"}}`. -/
theorem C5_schema_mismatch_witness :
    HandleDynamicAPI ⟨some (.obj [("event", .str "paymentrequest.pending"),
        ("data", .obj [("amount", .str "x")])])⟩ true =
      ({ status := 200, contentType := none, body := none },
       [⟨.info, "This API is connected"⟩,
        ⟨.info, "payment pending hook event"⟩,
        ⟨.error, "error marshalling pending payment data"⟩]) :=
  C5_schema_mismatch.1 (.obj [("event", .str "paymentrequest.pending"),
      ("data", .obj [("amount", .str "x")])])
    ⟨"paymentrequest.pending"⟩ true rfl rfl rfl

/-- C6 counterexample: `{"event": 5}` is valid JSON whose envelope shape
is violated (`event` holds a number, not a string).  The claim says the
extractor then yields the empty string and the unrecognized-kind path
(status 500) is taken, with a hard failure only for raw bytes that are not
valid JSON; the code instead hard-fails here: the unmarshal error is
logged, the handler returns early, and the response is the 200 transport
default, not the 500 outcome. -/
theorem C6_counterexample :
    eventIdentifierOf (.obj [("event", .num 5)]) = none ∧
    HandleDynamicAPI ⟨some (.obj [("event", .num 5)])⟩ true =
      ({ status := 200, contentType := none, body := none },
       [⟨.info, "This API is connected"⟩,
        ⟨.error, "error unmarshalling json data message"⟩]) ∧
    (HandleDynamicAPI ⟨some (.obj [("event", .num 5)])⟩ true).1.status
      ≠ 500 := by
  exact ⟨rfl, rfl, by decide⟩

/-- C6 amended: the extractor yields the `event` value as a string; it
yields the empty string when every `event`-matching field is absent or
null, and the empty string then takes the unrecognized-kind 500 path; a
hard failure is propagated to the caller (logged, early return, 200
default) not only when the raw bytes are not valid JSON but also whenever
the valid JSON does not fit the envelope shape (an `event` value that is
neither string nor null, or a non-object non-null top level). -/
theorem C6_extractor :
    (∀ fs : List (String × Json),
      (eventIdentifierOf (.obj fs)).isSome =
        fs.all fun kv => wtIdentField kv.1 kv.2)
    ∧ (∀ fs : List (String × Json),
        (∀ kv ∈ fs, eqFold kv.1 "event" = true → kv.2 = Json.null) →
        eventIdentifierOf (.obj fs) = some "")
    ∧ (∀ (j : Json) (ok : Bool),
        unmarshalEventIdentfier j EventIdentfier.zero = none →
        HandleDynamicAPI ⟨some j⟩ ok =
          ({ status := 200, contentType := none, body := none },
           [⟨.info, "This API is connected"⟩,
            ⟨.error, "error unmarshalling json data message"⟩]))
    ∧ (∀ (j : Json) (i : EventIdentfier) (ok : Bool),
        unmarshalEventIdentfier j EventIdentfier.zero = some i →
        i.event = "" →
        HandleDynamicAPI ⟨some j⟩ ok =
          ({ status := 500, contentType := none, body := none },
           [⟨.info, "This API is connected"⟩,
            ⟨.info, "no event type found"⟩])) := by
  refine ⟨?_, ?_, ?_, ?_⟩
  · intro fs
    simp [eventIdentifierOf, unmarshalEventIdentfier, isSome_map,
      unmarshalFields_isSome updEventIdentfier wtIdentField
        updEventIdentfier_isSome]
  · intro fs h
    simp [eventIdentifierOf, unmarshalEventIdentfier,
      identFold_nullEvent fs EventIdentfier.zero h]
    rfl
  · intro j ok h
    simp [HandleDynamicAPI, h]
  · intro j i ok hi hev
    have hb : branchOf i.event = .unrecognized := by rw [hev]; rfl
    simp [HandleDynamicAPI, hi, hb]

/-- Witness for the amended C6: a null `event` extracts as the empty
string, and a payload with no `event` key takes the 500 path. -/
theorem C6_extractor_witness :
    eventIdentifierOf (.obj [("event", Json.null)]) = some "" ∧
    HandleDynamicAPI ⟨some (.obj [("other", .num 1)])⟩ true =
      ({ status := 500, contentType := none, body := none },
       [⟨.info, "This API is connected"⟩,
        ⟨.info, "no event type found"⟩]) :=
  ⟨C6_extractor.2.1 [("event", Json.null)]
      (by intro kv hm hk; simp at hm; rw [hm]),
   C6_extractor.2.2.2 (.obj [("other", .num 1)]) ⟨""⟩ true rfl rfl⟩

/-- C7, at the failing input: on the success branch a response-encoding
failure is swallowed, not logged (main.go:140-142 has no logging call,
unlike the health and pending branches), though the handler does return
without crashing and with the branch's status intact. -/
theorem C7_success_encode_failure_unlogged :
    HandleDynamicAPI ⟨some jSuccessEx⟩ false =
      ({ status := 200, contentType := some "application/json",
         body := none },
       [⟨.info, "This API is connected"⟩,
        ⟨.info, "payment successful hook event"⟩]) ∧
    ((HandleDynamicAPI ⟨some jSuccessEx⟩ false).2.all
        fun e => e.level == LogLevel.info) = true ∧
    (HandleDynamicAPI ⟨some jSuccessEx⟩ false).1.status
      = (HandleDynamicAPI ⟨some jSuccessEx⟩ true).1.status ∧
    HandleDynamicAPI ⟨some jPendingEx⟩ false =
      ({ status := 200, contentType := some "application/json",
         body := none },
       [⟨.info, "This API is connected"⟩,
        ⟨.info, "payment pending hook event"⟩,
        ⟨.error, "error encoding data to send as response"⟩]) ∧
    HealthCheck ⟨none⟩ false =
      ({ status := 200, contentType := none, body := none },
       [⟨.error, "error encoding data to send as response"⟩]) := by
  exact ⟨rfl, rfl, rfl, rfl, rfl⟩

/-- C8: across any sequence of calls the health endpoint yields the same
response — status 200 (no `WriteHeader` call), body
`{"data":"Hello from localhost:3000"}` — and its output never depends on
the request; the handler holds no state. -/
theorem C8_health_stateless :
    (∀ rs : List Request,
      rs.map (fun r => HealthCheck r true) =
        rs.map fun _ =>
          ({ status := 200, contentType := none, body := some healthBody },
           ([] : List LogEntry)))
    ∧ (∀ (r r' : Request) (ok : Bool), HealthCheck r ok = HealthCheck r' ok) :=
  ⟨fun _ => rfl, fun _ _ _ => rfl⟩

/-- C9: the `event` string deterministically selects exactly one arm of
the dispatch switch; the pending and success branches are mutually
exclusive, so no payload is ever decoded under both schemas. -/
theorem C9_branch_exclusive (e : String) :
    (branchOf e = .pending ↔ e = "paymentrequest.pending") ∧
    (branchOf e = .success ↔ e = "paymentrequest.success") ∧
    ¬(branchOf e = .pending ∧ branchOf e = .success) := by
  refine ⟨branchOf_eq_pending e, branchOf_eq_success e, ?_⟩
  rintro ⟨h1, h2⟩
  exact EventBranch.noConfusion (h1.symm.trans h2)

/-- Witness for C9 at the concrete pending event string. -/
theorem C9_branch_exclusive_witness :
    (branchOf "paymentrequest.pending" = .pending ↔
      "paymentrequest.pending" = "paymentrequest.pending") ∧
    (branchOf "paymentrequest.pending" = .success ↔
      "paymentrequest.pending" = "paymentrequest.success") ∧
    ¬(branchOf "paymentrequest.pending" = .pending ∧
      branchOf "paymentrequest.pending" = .success) :=
  C9_branch_exclusive "paymentrequest.pending"

/-- C10: decoding a recognized-event payload fails exactly when some
present field has a mismatched type, so absent fields are never a
`SchemaMismatch`; a missing `amount` (pending) or `description` (success)
is left at its zero value, and dispatch on a payload whose whole `data`
object is missing returns 200 with amount 0 resp. empty description. -/
theorem C10_absent_fields :
    (∀ fs : List (String × Json),
      (unmarshalPaymentPending (.obj fs) PaymentPending.zero).isSome =
        fs.all fun kv => wtPendingField kv.1 kv.2)
    ∧ (∀ fs : List (String × Json),
      (unmarshalPaymentSuccessful (.obj fs) PaymentSuccessful.zero).isSome =
        fs.all fun kv => wtSuccessField kv.1 kv.2)
    ∧ (∀ (gs : List (String × Json)) (d : PendingData),
        unmarshalFields updPendingData PendingData.zero gs = some d →
        (∀ kv ∈ gs, eqFold kv.1 "amount" = false) → d.amount = 0)
    ∧ (∀ (gs : List (String × Json)) (d : SuccessData),
        unmarshalFields updSuccessData SuccessData.zero gs = some d →
        (∀ kv ∈ gs, eqFold kv.1 "description" = false) → d.description = "")
    ∧ HandleDynamicAPI
        ⟨some (.obj [("event", .str "paymentrequest.pending")])⟩ true =
        ({ status := 200, contentType := some "application/json",
           body := some (.obj [("amount", .num 0),
             ("event type", .str "paymentrequest.pending")]) },
         [⟨.info, "This API is connected"⟩,
          ⟨.info, "payment pending hook event"⟩,
          ⟨.info, "pending response data unmarshalled successfully"⟩])
    ∧ HandleDynamicAPI
        ⟨some (.obj [("event", .str "paymentrequest.success")])⟩ true =
        ({ status := 200, contentType := some "application/json",
           body := some (.obj [("description", .str ""),
             ("event type", .str "paymentrequest.success")]) },
         [⟨.info, "This API is connected"⟩,
          ⟨.info, "payment successful hook event"⟩,
          ⟨.info, "success response data unmarshalled successfully"⟩]) := by
  refine ⟨?_, ?_, ?_, ?_, rfl, rfl⟩
  · intro fs
    simp [unmarshalPaymentPending,
      unmarshalFields_isSome updPaymentPending wtPendingField
        updPaymentPending_isSome]
  · intro fs
    simp [unmarshalPaymentSuccessful,
      unmarshalFields_isSome updPaymentSuccessful wtSuccessField
        updPaymentSuccessful_isSome]
  · intro gs d h hP
    simpa using unmarshalFields_preserve updPendingData (fun t => t.amount)
      (fun k => eqFold k "amount") updPendingData_amount gs
      PendingData.zero d h hP
  · intro gs d h hP
    simpa using unmarshalFields_preserve updSuccessData
      (fun t => t.description) (fun k => eqFold k "description")
      updSuccessData_description gs SuccessData.zero d h hP

/-- Witness for C10: decoding `{"id":7}` as each data struct leaves
`amount` resp. `description` at the zero value. -/
theorem C10_absent_fields_witness :
    ({ PendingData.zero with id := 7 } : PendingData).amount = 0 ∧
    ({ SuccessData.zero with id := 7 } : SuccessData).description = "" :=
  ⟨C10_absent_fields.2.2.1 [("id", Json.num 7)] _ rfl
      (by intro kv hm; simp at hm; rw [hm]; rfl),
   C10_absent_fields.2.2.2.1 [("id", Json.num 7)] _ rfl
      (by intro kv hm; simp at hm; rw [hm]; rfl)⟩
